import Mathlib

/-!
# Verification of the HTML Table Reader extraction pipeline

Shallow embedding of `src/extension.py` (class `HTMLTableReaderNode`):
the table locator, row extractor (colspan expansion), grid normalizer,
header resolver, column-name cleaner and per-column type inferencer,
together with the `execute` flow that assembles the final table.

External collaborators (BeautifulSoup text extraction, `pd.to_numeric`,
`pd.to_datetime`) are modelled on the fragment of their behaviour the
pipeline exercises: all cell values entering the pipeline are trimmed
strings, and numerals are modelled exactly as rationals.
-/

deriving instance DecidableEq for Except

namespace HTMLTableReader

/-- Python exceptions the modelled code can raise.  In `execute` every
exception is caught and re-raised as `RuntimeError(str(e))`; the model keeps
the original exception since the wrapper preserves which failure occurred. -/
inductive PyExn where
  /-- `ValueError("No HTML tables found in the file")` -/
  | valueErrorNoTables : PyExn
  /-- `ValueError(f"Table index {i} not found. File contains {n} table(s)")`:
  carries the requested index and the actual table count, as the message does. -/
  | valueErrorIndexOutOfRange : Nat → Nat → PyExn
  /-- `ValueError` raised by `int(attr)` on an unparsable colspan attribute. -/
  | valueErrorBadColspan : String → PyExn
  /-- `AttributeError` raised by `df[col].dtype` when `col` is a duplicated
  label (`df[col]` is then a `DataFrame`, which has no `.dtype`). -/
  | attributeError : PyExn
deriving DecidableEq

/-- One parsed `<td>`/`<th>` element: its flattened text content and the raw
`colspan` attribute value (`none` when the attribute is absent). -/
structure HtmlCell where
  text : String
  colspan : Option String
deriving DecidableEq

/-- One parsed `<tr>` element. -/
structure HtmlRow where
  cells : List HtmlCell
deriving DecidableEq

/-- One parsed `<table>` element. -/
structure HtmlTable where
  trs : List HtmlRow
deriving DecidableEq

/-- Python whitespace, as stripped by `str.strip()` and
`get_text(strip=True)`. -/
def isPySpace (c : Char) : Bool :=
  c = ' ' || c = '\t' || c = '\n' || c = '\r' || c = '\x0b' || c = '\x0c'

/-- Model of Python `str.strip()`: remove leading and trailing
whitespace. -/
def py_strip (s : String) : String :=
  String.mk (((s.toList.dropWhile isPySpace).reverse.dropWhile isPySpace).reverse)

/-- Numeric value of a list of decimal digit characters (most significant
first); used by the models of Python `int()` and `pd.to_numeric`. -/
def digitsVal (cs : List Char) : Nat :=
  cs.foldl (fun a c => 10 * a + (c.toNat - 48)) 0

/-- Digit run parser shared by the numeric models: `some` of the value when
`cs` is a non-empty all-digit list, else `none`. -/
def parseDigits (cs : List Char) : Option Nat :=
  if cs.isEmpty then none
  else if cs.all Char.isDigit then some (digitsVal cs) else none

/-- Model of Python `int(s)` on a string: surrounding whitespace stripped,
optional sign, decimal digits; anything else raises `ValueError`, modelled
as `none`. -/
def pyInt (s : String) : Option Int :=
  match (py_strip s).toList with
  | '+' :: cs => (parseDigits cs).map Int.ofNat
  | '-' :: cs => (parseDigits cs).map fun n => -(n : Int)
  | cs => (parseDigits cs).map Int.ofNat

/-- Unsigned decimal numeral with optional fractional part, as a rational:
`digits`, `digits.digits`, `digits.` or `.digits`. -/
def parseUnsigned (cs : List Char) : Option ℚ :=
  let intPart := cs.takeWhile Char.isDigit
  match cs.dropWhile Char.isDigit with
  | [] => if intPart.isEmpty then none else some (mkRat (digitsVal intPart) 1)
  | '.' :: frac =>
      if frac.all Char.isDigit && !(intPart.isEmpty && frac.isEmpty) then
        some (mkRat (digitsVal (intPart ++ frac)) (10 ^ frac.length))
      else none
  | _ => none

/-- Model of `pd.to_numeric` on one cell string (the cells reaching it are
already trimmed; the empty string and unparsable tokens coerce to NaN,
modelled as `none`). Values are modelled exactly as rationals. -/
def to_numeric_cell (s : String) : Option ℚ :=
  match (py_strip s).toList with
  | '+' :: cs => parseUnsigned cs
  | '-' :: cs => (parseUnsigned cs).map Neg.neg
  | cs => parseUnsigned cs

/-- Model of `pd.to_numeric(series, errors='coerce')` on a column of
strings: every unparsable token becomes null and no exception is raised,
so the result is always `.ok`.  (The `Except` wrapper records that the
source calls it inside a `try:` block.) -/
def to_numeric (vs : List String) : Except PyExn (List (Option ℚ)) :=
  .ok (vs.map to_numeric_cell)

/-- Model of `pd.to_datetime(cell, errors='coerce')` on the ISO-date
fragment `YYYY-MM-DD`; anything else coerces to NaT (`none`).  A timestamp
is modelled as its (year, month, day) triple. -/
def to_datetime_cell (s : String) : Option (Nat × Nat × Nat) :=
  match (py_strip s).toList with
  | [y1, y2, y3, y4, '-', m1, m2, '-', d1, d2] =>
      if ([y1, y2, y3, y4].all Char.isDigit && [m1, m2].all Char.isDigit
            && [d1, d2].all Char.isDigit) then
        let m := digitsVal [m1, m2]
        let d := digitsVal [d1, d2]
        if 1 ≤ m && m ≤ 12 && 1 ≤ d && d ≤ 31 then
          some (digitsVal [y1, y2, y3, y4], m, d)
        else none
      else none
  | _ => none

/-- A pandas column as the pipeline can type it: text (`object` dtype),
nullable integer (`Int64`), nullable float, or nullable datetime. -/
inductive PCol where
  | text : List String → PCol
  | ints : List (Option Int) → PCol
  | floats : List (Option ℚ) → PCol
  | times : List (Option (Nat × Nat × Nat)) → PCol
deriving DecidableEq

/-- Number of entries of a column. -/
def PCol.size : PCol → Nat
  | .text vs => vs.length
  | .ints vs => vs.length
  | .floats vs => vs.length
  | .times vs => vs.length

/-- A cell value as it appears in a typed column. -/
inductive PVal where
  | vstr : String → PVal
  | vint : Option Int → PVal
  | vfloat : Option ℚ → PVal
  | vtime : Option (Nat × Nat × Nat) → PVal
deriving DecidableEq

/-- Entry `i` of a column (missing entries read as defaults; only in-range
indices are used by the theorems). -/
def PCol.val : PCol → Nat → PVal
  | .text vs, i => .vstr (vs.getD i "")
  | .ints vs, i => .vint (vs.getD i none)
  | .floats vs, i => .vfloat (vs.getD i none)
  | .times vs, i => .vtime (vs.getD i none)

/-- A pandas DataFrame: ordered column labels paired positionally with the
column data (`names.length` = number of columns). -/
structure Df where
  names : List String
  cols : List PCol
deriving DecidableEq

/-- `pd.DataFrame()`: no columns, no rows. -/
def empty_df : Df := ⟨[], []⟩

/-- Number of rows (`len(df)`): length of the first column, `0` when there
are no columns.  All constructions below give every column equal length. -/
def Df.nRows (df : Df) : Nat :=
  match df.cols with
  | [] => 0
  | c :: _ => c.size

/-- `df.empty`: true when either axis has length zero. -/
def Df.isEmpty (df : Df) : Bool :=
  df.names.isEmpty || df.nRows == 0

/-- Row `i` of the frame, as typed values across the columns. -/
def Df.row (df : Df) (i : Nat) : List PVal :=
  df.cols.map fun c => c.val i

/-- `cell.get_text(strip=True)`: the cell's flattened text content with
surrounding whitespace stripped. -/
def cell_text (c : HtmlCell) : String := py_strip c.text

/-- Colspan expansion of one cell (`extension.py` lines 135-142):
`colspan = int(cell.get('colspan', 1))` followed by
`for _ in range(colspan): row_data.append(cell_text)`.
When the attribute is absent, `cell.get` returns the default `1`; when
present, `int(attr)` raises `ValueError` on an unparsable string, and
`range n` for `n ≤ 0` is empty (`Int.toNat` sends negatives to `0`). -/
def cell_expand (c : HtmlCell) : Except PyExn (List String) :=
  match c.colspan with
  | none => .ok (List.replicate 1 (cell_text c))
  | some attr =>
      match pyInt attr with
      | some n => .ok (List.replicate n.toNat (cell_text c))
      | none => .error (.valueErrorBadColspan attr)

/-- All cell texts of one `<tr>`, colspan-expanded, in document order. -/
def extract_row (tr : HtmlRow) : Except PyExn (List String) :=
  (tr.cells.mapM cell_expand).map List.flatten

/-- Raw rows of one table (`for tr in table.find_all('tr')`), keeping a row
only if it produced at least one cell (`if row_data:`). -/
def extract_rows (t : HtmlTable) : Except PyExn (List (List String)) :=
  (t.trs.mapM extract_row).map (List.filter fun r => !r.isEmpty)

/-- `any(cell.strip() for cell in row)`. -/
def row_has_content (r : List String) : Bool :=
  r.any fun c => !(py_strip c).isEmpty

/-- The `skip_empty_rows` filter. -/
def skip_empty (skipEmptyRows : Bool) (rows : List (List String)) :
    List (List String) :=
  if skipEmptyRows then rows.filter row_has_content else rows

/-- `max(len(row) for row in rows)` (the call site guards `rows ≠ []`). -/
def max_cols (rows : List (List String)) : Nat :=
  (rows.map List.length).foldr max 0

/-- The in-place padding loop
`while len(row) < max_cols: row.append('')`. -/
def pad_row (r : List String) (m : Nat) : List String :=
  r ++ List.replicate (m - r.length) ""

/-- Grid normalization (`extension.py` lines 157-165).  The loop pads each
raw row object *in place* and then appends the fresh slice `row[:max_cols]`
to `normalized_rows`; the Python mutation is made explicit by returning a
pair: first component = the state of the received raw rows after the loop,
second component = `normalized_rows`. -/
def normalize_rows (rows : List (List String)) :
    List (List String) × List (List String) :=
  let m := max_cols rows
  (rows.map (fun r => pad_row r m), rows.map fun r => (pad_row r m).take m)

/-- `_clean_column_name`: replace `\n`, `\r`, `\t` by spaces. -/
def replace_ws (c : Char) : Char :=
  if c = '\n' || c = '\r' || c = '\t' then ' ' else c

/-- `while '  ' in name: name = name.replace('  ', ' ')`: collapse every run
of consecutive spaces to a single space. -/
def collapse_spaces : List Char → List Char
  | [] => []
  | [c] => [c]
  | c1 :: c2 :: rest =>
      if c1 = ' ' && c2 = ' ' then collapse_spaces (c2 :: rest)
      else c1 :: collapse_spaces (c2 :: rest)

/-- `_clean_column_name` (`extension.py` lines 184-200): strip, substitute
`"Unnamed_Column"` for blank names, replace newline/CR/tab by spaces,
collapse space runs.  No deduplication of any kind. -/
def clean_column_name (name : String) : String :=
  let n := py_strip name
  if n.isEmpty then "Unnamed_Column"
  else String.mk (collapse_spaces (n.toList.map replace_ws))

/-- DataFrame construction with header resolution (`extension.py` lines
167-177).  With a header: `pd.DataFrame(normalized_rows[1:],
columns=normalized_rows[0])`, then the labels are cleaned.  Without:
`pd.DataFrame(normalized_rows)` gets labels `Column_1 .. Column_N` where
`N = len(df.columns)`, the maximal row width.  Columns are materialised
positionally from the data rows. -/
def build_df (hasHeader : Bool) (grid : List (List String)) : Df :=
  if hasHeader && !grid.isEmpty then
    let names := (grid.headD []).map clean_column_name
    let dataRows := grid.tail
    { names := names
      cols := (List.range names.length).map fun i =>
        PCol.text (dataRows.map fun r => r.getD i "") }
  else
    let m := max_cols grid
    { names := (List.range m).map fun i => "Column_" ++ toString (i + 1)
      cols := (List.range m).map fun i =>
        PCol.text (grid.map fun r => r.getD i "") }

/-- The dead `except (ValueError, TypeError)` datetime fallback of
`_convert_data_types` (lines 222-230): coerce every value with
`pd.to_datetime(..., errors='coerce')` and keep the result only when
`datetime_series.notna().sum() > len(df) * 0.5`. -/
def datetime_fallback (vs : List String) : PCol :=
  let dt := vs.map to_datetime_cell
  if vs.length < 2 * (dt.filterMap id).length then PCol.times dt
  else PCol.text vs

/-- Numeric/temporal inference for one `object`-dtype column
(`_convert_data_types` lines 209-230).  `pd.to_numeric` with
`errors='coerce'` never raises on string data, so the `except` branch
(`datetime_fallback`) is unreachable; when no value coerces the column is
left untouched. -/
def convert_text_col (vs : List String) : PCol :=
  match to_numeric vs with
  | .ok numeric =>
      if numeric.any Option.isSome then
        if (numeric.filterMap id).all (fun q => q.den == 1) then
          PCol.ints (numeric.map (Option.map Rat.num))
        else PCol.floats numeric
      else PCol.text vs
  | .error _ => datetime_fallback vs

/-- Per-column dispatch: `if df[col].dtype != 'object': continue`. -/
def convert_col (c : PCol) : PCol :=
  match c with
  | .text vs => convert_text_col vs
  | other => other

/-- `_convert_data_types` over the whole frame.  The loop
`for col in df.columns:` evaluates `df[col].dtype`; on a duplicated label
`df[col]` is a `DataFrame`, which has no `.dtype`, so an `AttributeError`
escapes (it is not caught by `except (ValueError, TypeError)`), aborting the
conversion.  With pairwise-distinct labels each column is converted
independently. -/
def convert_data_types (df : Df) : Except PyExn Df :=
  if df.names.Nodup then .ok { df with cols := df.cols.map convert_col }
  else .error .attributeError

/-- `_table_to_dataframe` (`extension.py` lines 126-182). -/
def table_to_dataframe (skipEmptyRows hasHeader : Bool) (t : HtmlTable) :
    Except PyExn Df :=
  match extract_rows t with
  | .error e => .error e
  | .ok rows0 =>
      if rows0.isEmpty then .ok empty_df
      else
        let rows := skip_empty skipEmptyRows rows0
        if rows.isEmpty then .ok empty_df
        else
          let grid := (normalize_rows rows).2
          convert_data_types (build_df hasHeader grid)

/-- Table location inside `execute` (lines 94-108): `soup.find_all('table')`
already performed, yielding `tables`; raise on zero tables, raise on an
out-of-range index, else select `tables[self.table_index]`. -/
def find_table (tables : List HtmlTable) (idx : Nat) : Except PyExn HtmlTable :=
  if tables.isEmpty then .error .valueErrorNoTables
  else if tables.length ≤ idx then
    .error (.valueErrorIndexOutOfRange idx tables.length)
  else .ok (tables.getD idx ⟨[]⟩)

/-- Final output of one execution: the table handed to the host and whether
the empty-result warning was emitted. -/
structure ExecResult where
  df : Df
  warned : Bool
deriving DecidableEq

/-- `pd.DataFrame({'Column_1': []})`: the placeholder substituted for an
empty extraction result. -/
def placeholder_df : Df := ⟨["Column_1"], [PCol.text []]⟩

/-- `execute` (lines 81-124) after parsing: locate the table, build the
frame, and if `df.empty` substitute the one-column placeholder while
setting the warning.  Exceptions are re-raised as
`RuntimeError(f"Failed to read HTML table: {e}")`; the model keeps the
original exception, which the wrapper's message preserves. -/
def execute (skipEmptyRows hasHeader : Bool) (tables : List HtmlTable)
    (tableIndex : Nat) : Except PyExn ExecResult :=
  match find_table tables tableIndex with
  | .error e => .error e
  | .ok t =>
      match table_to_dataframe skipEmptyRows hasHeader t with
      | .error e => .error e
      | .ok df =>
          if df.isEmpty then .ok ⟨placeholder_df, true⟩
          else .ok ⟨df, false⟩

/-! ## Supporting lemmas -/

/-- `pd.to_numeric(..., errors='coerce')` never raises on string data, so
the `except (ValueError, TypeError)` branch of `_convert_data_types` is
unreachable. -/
theorem to_numeric_never_raises (vs : List String) :
    to_numeric vs = .ok (vs.map to_numeric_cell) := rfl

theorem max_cols_cons (a : List String) (t : List (List String)) :
    max_cols (a :: t) = max a.length (max_cols t) := rfl

theorem length_le_max_cols {rows : List (List String)} {r : List String}
    (h : r ∈ rows) : r.length ≤ max_cols rows := by
  induction rows with
  | nil => cases h
  | cons a t ih =>
      rw [max_cols_cons]
      rcases List.mem_cons.mp h with rfl | h2
      · exact le_max_left _ _
      · exact le_trans (ih h2) (le_max_right _ _)

theorem pad_row_length {r : List String} {m : Nat} (h : r.length ≤ m) :
    (pad_row r m).length = m := by
  simp only [pad_row, List.length_append, List.length_replicate]
  omega

theorem pad_row_eq_self {r : List String} {m : Nat} (h : m ≤ r.length) :
    pad_row r m = r := by
  simp [pad_row, Nat.sub_eq_zero_of_le h]

theorem take_pad_row {r : List String} {m : Nat} (h : r.length ≤ m) :
    (pad_row r m).take m = pad_row r m :=
  List.take_of_length_le (le_of_eq (pad_row_length h))

theorem list_map_eq_self {α : Type} {f : α → α} {l : List α} :
    l.map f = l ↔ ∀ a ∈ l, f a = a := by
  induction l with
  | nil => simp
  | cons a t ih => simp [ih]

theorem range_map_getD {α : Type} (r : List α) (d : α) :
    (List.range r.length).map (fun i => r.getD i d) = r := by
  induction r with
  | nil => simp
  | cons a t ih =>
      rw [List.length_cons, List.range_succ_eq_map, List.map_cons, List.map_map]
      simp only [List.getD_cons_zero, Function.comp_def, List.getD_cons_succ]
      rw [ih]

theorem convert_data_types_names {df df2 : Df}
    (h : convert_data_types df = .ok df2) : df2.names = df.names := by
  by_cases hd : df.names.Nodup
  · rw [convert_data_types, if_pos hd] at h
    cases h
    rfl
  · rw [convert_data_types, if_neg hd] at h
    cases h

/-! ## Claims -/

/-- **C1** (code bug).  The claim (and the spec, and the code's own comment
"If numeric conversion fails, try datetime") say that a column with zero
non-null numeric coercions is run through timestamp coercion, accepted when
more than half the rows parse.  In the code the timestamp attempt lives in
an `except (ValueError, TypeError)` handler, but `pd.to_numeric` is called
with `errors='coerce'` and never raises on string data
(`to_numeric_never_raises`), so the handler is dead: a column of ISO date
strings is left as text even though the fallback, had it run, would have
accepted the timestamp interpretation (2 of 2 rows parse, more than 50%). -/
theorem C1_dead_datetime_fallback :
    convert_text_col ["2021-01-01", "2022-12-31"]
        = PCol.text ["2021-01-01", "2022-12-31"]
      ∧ datetime_fallback ["2021-01-01", "2022-12-31"]
        = PCol.times [some (2021, 1, 1), some (2022, 12, 31)] := by
  decide

/-- **C2 counterexample.**  A grid with exactly one row (cells "A", "B") and
`has_header=true` yields a zero-row dataframe, which pandas reports as
`df.empty`; `execute` therefore replaces it with the generic one-column
placeholder, so the output's column names are `["Column_1"]`, not the
sanitized values of the single row — refuting the claim as stated. -/
theorem C2_counterexample :
    execute true true [⟨[⟨[⟨"A", none⟩, ⟨"B", none⟩]⟩]⟩] 0
        = .ok ⟨placeholder_df, true⟩
      ∧ placeholder_df.names ≠ ["A", "B"] := by
  decide

/-- **C2 amended.**  For every table whose extraction yields exactly one
(kept) row, with `has_header=true` the header resolver does produce a
zero-row frame with that row's sanitized names, but since a zero-row frame
is `empty`, `execute` replaces it with the one-column placeholder
`Column_1` and emits the warning; the sanitized names do not reach the
output (provided the sanitized names are pairwise distinct, without which
type conversion aborts — see C4). -/
theorem C2_amended_placeholder (t : HtmlTable) (rs : List (List String))
    (r : List String) (hex : extract_rows t = .ok rs)
    (hskip : skip_empty true rs = [r])
    (hnodup : (r.map clean_column_name).Nodup) :
    execute true true [t] 0 = .ok ⟨placeholder_df, true⟩ := by
  have hrs : ¬rs.isEmpty := by
    intro h
    rw [List.isEmpty_iff.mp h] at hskip
    simp [skip_empty] at hskip
  have hm : max_cols [r] = r.length := by
    rw [max_cols_cons]
    simp [max_cols]
  have hgrid : (normalize_rows [r]).2 = [r] := by
    simp only [normalize_rows, hm, List.map_cons, List.map_nil]
    rw [pad_row_eq_self (le_refl _), List.take_length]
  have hbuild : build_df true [r]
      = { names := r.map clean_column_name
          cols := (List.range (r.map clean_column_name).length).map
            fun _ => PCol.text [] } := by
    simp [build_df]
  have hconv : convert_data_types (build_df true [r])
      = .ok { names := r.map clean_column_name
              cols := (List.range (r.map clean_column_name).length).map
                fun _ => PCol.text [] } := by
    rw [hbuild, convert_data_types, if_pos hnodup]
    simp only [List.map_map]
    rfl
  have hempty : (Df.isEmpty
      { names := r.map clean_column_name
        cols := (List.range (r.map clean_column_name).length).map
          fun _ => PCol.text [] }) = true := by
    rcases r with _ | ⟨a, r2⟩
    · rfl
    · simp only [Df.isEmpty, Df.nRows, List.length_cons, List.length_map,
        List.range_succ_eq_map, List.map_cons]
      rfl
  have hrsf : rs.isEmpty = false := by simpa using hrs
  have htd : table_to_dataframe true true t
      = .ok { names := r.map clean_column_name
              cols := (List.range (r.map clean_column_name).length).map
                fun _ => PCol.text [] } := by
    simp only [table_to_dataframe, hex, hrsf, Bool.false_eq_true, if_false,
      hskip, List.isEmpty_cons, hgrid, hconv]
  have hfind : find_table [t] 0 = .ok t := rfl
  simp only [execute, hfind, htd, hempty, if_true]

/-- **C2 witness.** -/
theorem C2_witness :
    execute true true [⟨[⟨[⟨"C", none⟩, ⟨"D", none⟩]⟩]⟩] 0
      = .ok ⟨placeholder_df, true⟩ :=
  C2_amended_placeholder ⟨[⟨[⟨"C", none⟩, ⟨"D", none⟩]⟩]⟩ [["C", "D"]]
    ["C", "D"] (by decide) (by decide) (by decide)

/-- **C3 counterexample.**  A cell declaring `colspan="abc"` does not
default to one copy: `int("abc")` raises `ValueError`, so extraction fails
instead of appending the text once — refuting the claim that an unparsable
colspan cannot cause extraction to fail. -/
theorem C3_counterexample :
    cell_expand ⟨"X", some "abc"⟩ ≠ .ok ["X"]
      ∧ cell_expand ⟨"X", some "abc"⟩
        = .error (.valueErrorBadColspan "abc") := by
  decide

/-- **C3 amended.**  The row extractor appends the stripped cell text `n`
times where `n = int(colspan)`; the default of 1 applies only when the
attribute is absent; a present but unparsable colspan raises `ValueError`,
aborting extraction; and a cell with `colspan="2"` and text "X" produces
two consecutive "X" cells. -/
theorem C3_amended_colspan :
    (∀ c : HtmlCell,
        (c.colspan = none → cell_expand c = .ok [cell_text c])
          ∧ (∀ attr n, c.colspan = some attr → pyInt attr = some n →
              cell_expand c = .ok (List.replicate n.toNat (cell_text c)))
          ∧ (∀ attr, c.colspan = some attr → pyInt attr = none →
              cell_expand c = .error (.valueErrorBadColspan attr)))
      ∧ cell_expand ⟨"X", some "2"⟩ = .ok ["X", "X"] := by
  refine ⟨fun c => ⟨?_, ?_, ?_⟩, by decide⟩
  · intro h
    simp [cell_expand, h]
  · intro attr n h1 h2
    simp [cell_expand, h1, h2]
  · intro attr h1 h2
    simp [cell_expand, h1, h2]

/-- **C3 witness.** -/
theorem C3_witness : cell_expand ⟨"Y", none⟩ = .ok [cell_text ⟨"Y", none⟩] :=
  (C3_amended_colspan.1 ⟨"Y", none⟩).1 rfl

/-- **C4 counterexample.**  A header row sanitizing to the repeated names
`["A", "A"]` does not flow through to an output table: type conversion's
`df[col]` returns a `DataFrame` for the duplicated label and `.dtype`
raises `AttributeError`, so the pipeline fails — refuting the claim that it
still successfully produces a table carrying the duplicates. -/
theorem C4_counterexample :
    (["A", "A"].map clean_column_name = ["A", "A"]
        ∧ ¬(["A", "A"] : List String).Nodup)
      ∧ execute true true [⟨[⟨[⟨"A", none⟩, ⟨"A", none⟩]⟩,
          ⟨[⟨"1", none⟩, ⟨"2", none⟩]⟩]⟩] 0 = .error .attributeError := by
  decide

/-- **C4 amended.**  Header-name sanitization indeed performs no
deduplication — the resolved names are exactly the cleaned header cells —
but a frame whose names are not pairwise distinct makes
`_convert_data_types` raise `AttributeError` (via `df[col].dtype` on a
duplicated label), so the pipeline errors out instead of producing an
output table with duplicate names. -/
theorem C4_amended_duplicate_names :
    (∀ grid : List (List String), grid ≠ [] →
        (build_df true grid).names = (grid.headD []).map clean_column_name)
      ∧ ∀ df : Df, ¬df.names.Nodup →
          convert_data_types df = .error .attributeError := by
  constructor
  · intro grid hg
    simp [build_df, hg]
  · intro df hd
    rw [convert_data_types, if_neg hd]

/-- **C4 witness.** -/
theorem C4_witness :
    convert_data_types ⟨["B", "B"], [PCol.text ["1"], PCol.text ["2"]]⟩
      = .error .attributeError :=
  C4_amended_duplicate_names.2 ⟨["B", "B"], [PCol.text ["1"], PCol.text ["2"]]⟩
    (by decide)

/-- **C5** (confirmed).  If at least one value of a text column coerces to
a number, the column becomes nullable integer when every coerced value is a
whole number and nullable float otherwise; moreover {"15000","22000"}
infers to integer with values [15000, 22000], {"15.5","22"} infers to
float, and a column of all-empty strings stays text. -/
theorem C5_numeric_inference :
    (∀ vs : List String, (∃ v ∈ vs, to_numeric_cell v ≠ none) →
        ((∀ q ∈ (vs.map to_numeric_cell).filterMap id, ∃ k : ℤ, q = (k : ℚ)) →
            convert_text_col vs
              = PCol.ints ((vs.map to_numeric_cell).map (Option.map Rat.num)))
          ∧ ((∃ q ∈ (vs.map to_numeric_cell).filterMap id,
                ∀ k : ℤ, q ≠ (k : ℚ)) →
            convert_text_col vs = PCol.floats (vs.map to_numeric_cell)))
      ∧ convert_text_col ["15000", "22000"] = PCol.ints [some 15000, some 22000]
      ∧ convert_text_col ["15.5", "22"]
          = PCol.floats [some (mkRat 31 2), some 22]
      ∧ ∀ vs : List String, (∀ v ∈ vs, v = "") →
          convert_text_col vs = PCol.text vs := by
  have hden : ∀ q : ℚ, (∃ k : ℤ, q = (k : ℚ)) ↔ q.den = 1 := by
    intro q
    constructor
    · rintro ⟨k, rfl⟩
      exact Rat.intCast_den k
    · intro h
      exact ⟨q.num, ((Rat.den_eq_one_iff q).mp h).symm⟩
  refine ⟨?_, by decide, by decide, ?_⟩
  · intro vs hex
    have hany : (vs.map to_numeric_cell).any Option.isSome = true := by
      rcases hex with ⟨v, hv, hne⟩
      rw [List.any_eq_true]
      exact ⟨to_numeric_cell v, List.mem_map_of_mem _ hv,
        Option.isSome_iff_ne_none.mpr hne⟩
    constructor
    · intro hall
      have hall2 : ((vs.map to_numeric_cell).filterMap id).all
          (fun q => q.den == 1) = true := by
        rw [List.all_eq_true]
        intro q hq
        exact beq_iff_eq.mpr ((hden q).mp (hall q hq))
      rw [convert_text_col, to_numeric_never_raises]
      simp only [hany, hall2, if_true]
    · rintro ⟨q, hq, hk⟩
      have hq1 : q.den ≠ 1 := fun h => hk q.num ((Rat.den_eq_one_iff q).mp h).symm
      have hall2 : ((vs.map to_numeric_cell).filterMap id).all
          (fun q => q.den == 1) = false := by
        rw [List.all_eq_false]
        exact ⟨q, hq, by simpa using hq1⟩
      rw [convert_text_col, to_numeric_never_raises]
      simp only [hany, hall2, if_true, if_false, Bool.false_eq_true]
  · intro vs hall
    have hnone : (vs.map to_numeric_cell).any Option.isSome = false := by
      rw [List.any_eq_false]
      intro o ho
      rcases List.mem_map.mp ho with ⟨v, hv, rfl⟩
      rw [hall v hv]
      decide
    rw [convert_text_col, to_numeric_never_raises]
    simp only [hnone, Bool.false_eq_true, if_false]

/-- **C5 witness.** -/
theorem C5_witness :
    convert_text_col ["7"]
      = PCol.ints ((["7"].map to_numeric_cell).map (Option.map Rat.num)) :=
  (C5_numeric_inference.1 ["7"] ⟨"7", by decide, by decide⟩).1 (by
    intro q hq
    have h7 : (["7"].map to_numeric_cell).filterMap id = [mkRat 7 1] := by
      decide
    rw [h7] at hq
    have hq2 : q = mkRat 7 1 := by simpa using hq
    exact ⟨7, by rw [hq2]; decide⟩)

/-- **C6** (confirmed).  For every non-empty sequence of raw rows, every
normalized row has length exactly `max_cols`; the normalized grid is
obtained purely by right-padding with empty strings (the `row[:max_cols]`
truncation is the identity on every padded row, i.e. the truncation branch
is unreachable). -/
theorem C6_grid_invariant (rows : List (List String)) (_hne : rows ≠ []) :
    (normalize_rows rows).2 = rows.map (fun r => pad_row r (max_cols rows))
      ∧ ∀ r ∈ (normalize_rows rows).2, r.length = max_cols rows := by
  constructor
  · simp only [normalize_rows]
    exact List.map_congr_left fun r hr => take_pad_row (length_le_max_cols hr)
  · intro r hr
    simp only [normalize_rows] at hr
    rcases List.mem_map.mp hr with ⟨s, hs, rfl⟩
    rw [take_pad_row (length_le_max_cols hs),
      pad_row_length (length_le_max_cols hs)]

/-- **C6 witness.** -/
theorem C6_witness :
    (normalize_rows [["a"], ["b", "c"]]).2
      = [["a"], ["b", "c"]].map
          (fun r => pad_row r (max_cols [["a"], ["b", "c"]])) :=
  (C6_grid_invariant [["a"], ["b", "c"]] (by decide)).1

/-- **C7** (confirmed).  Table location fails with the not-found error iff
the document has zero tables, fails with the index-out-of-range error —
carrying the requested index and the actual count — iff tables exist and
the index is at least the count, and returns the selected table (raising
neither error) whenever at least one table exists and the index is in
range. -/
theorem C7_table_location (tables : List HtmlTable) (idx : Nat) :
    (find_table tables idx = .error .valueErrorNoTables ↔ tables = [])
      ∧ (find_table tables idx
            = .error (.valueErrorIndexOutOfRange idx tables.length)
          ↔ tables ≠ [] ∧ tables.length ≤ idx)
      ∧ (tables ≠ [] → idx < tables.length →
          find_table tables idx = .ok (tables.getD idx ⟨[]⟩)) := by
  rcases tables with _ | ⟨t, ts⟩
  · refine ⟨by simp [find_table], by simp [find_table], ?_⟩
    intro h
    simp at h
  · by_cases hle : ts.length + 1 ≤ idx
    · refine ⟨by simp [find_table, hle], by simp [find_table, hle], ?_⟩
      intro _ hlt
      rw [List.length_cons] at hlt
      omega
    · refine ⟨by simp [find_table, hle], by simp [find_table, hle], ?_⟩
      intro _ _
      simp [find_table, hle]

/-- **C7 witness.** -/
theorem C7_witness :
    find_table [(⟨[]⟩ : HtmlTable)] 0
      = .ok (([(⟨[]⟩ : HtmlTable)]).getD 0 ⟨[]⟩) :=
  (C7_table_location [⟨[]⟩] 0).2.2 (by decide) (by decide)

/-- **C8 counterexample.**  A two-row, one-column table ["Sales"; "15000"]
processed with `has_header=false` gets the column name `Column_1`, but the
column infers to nullable integer, so the first data row of the output is
a missing value, not the original header text "Sales" — refuting the
verbatim round-trip claim for the output table. -/
theorem C8_counterexample :
    execute true false [⟨[⟨[⟨"Sales", none⟩]⟩, ⟨[⟨"15000", none⟩]⟩]⟩] 0
        = .ok ⟨⟨["Column_1"], [PCol.ints [none, some 15000]]⟩, false⟩
      ∧ Df.row ⟨["Column_1"], [PCol.ints [none, some 15000]]⟩ 0
        ≠ [PVal.vstr "Sales"] := by
  decide

/-- **C8 amended.**  For every normalized grid processed with
`has_header=false`, the column names are exactly `Column_1 .. Column_N`
(1-based, `N = max_cols`) and survive type conversion unchanged, and the
original header text row reappears verbatim as the first data row of the
frame *before* type conversion; after conversion a column inferred numeric
coerces the header text (typically to missing), as the counterexample
shows. -/
theorem C8_amended_no_header (grid : List (List String)) (hne : grid ≠ [])
    (hnorm : ∀ r ∈ grid, r.length = max_cols grid) :
    (build_df false grid).names
        = (List.range (max_cols grid)).map
            (fun i => "Column_" ++ toString (i + 1))
      ∧ Df.row (build_df false grid) 0 = (grid.headD []).map PVal.vstr
      ∧ ∀ df : Df, convert_data_types (build_df false grid) = .ok df →
          df.names = (build_df false grid).names := by
  refine ⟨rfl, ?_, fun df h => convert_data_types_names h⟩
  rcases grid with _ | ⟨r0, rest⟩
  · cases hne rfl
  · have hr0 : r0.length = max_cols (r0 :: rest) :=
      hnorm r0 (List.mem_cons_self r0 rest)
    show ((List.range (max_cols (r0 :: rest))).map fun i =>
        PCol.text ((r0 :: rest).map fun r => r.getD i "")).map (fun c => c.val 0)
        = r0.map PVal.vstr
    calc ((List.range (max_cols (r0 :: rest))).map fun i =>
            PCol.text ((r0 :: rest).map fun r => r.getD i "")).map (fun c => c.val 0)
        = (List.range (max_cols (r0 :: rest))).map fun i =>
            PVal.vstr (r0.getD i "") := by
          rw [List.map_map]
          rfl
      _ = (List.range r0.length).map fun i => PVal.vstr (r0.getD i "") := by
          rw [hr0]
      _ = ((List.range r0.length).map fun i => r0.getD i "").map PVal.vstr := by
          rw [List.map_map]
          rfl
      _ = r0.map PVal.vstr := by rw [range_map_getD]

/-- **C8 witness.** -/
theorem C8_witness :
    (build_df false [["A"]]).names
      = (List.range (max_cols [["A"]])).map
          (fun i => "Column_" ++ toString (i + 1)) :=
  (C8_amended_no_header [["A"]] (by decide) (by decide)).1

/-- **C9 counterexample.**  Grid normalization does *not* leave the raw row
sequence it received unchanged: the padding loop `row.append('')` mutates
the short row `["c"]` in place, so after normalization the received
sequence reads `[["a","b"], ["c",""]]` — refuting the no-mutation claim. -/
theorem C9_counterexample :
    (normalize_rows [["a", "b"], ["c"]]).1 ≠ [["a", "b"], ["c"]] := by
  decide

/-- **C9 amended.**  Grid normalization pads the received raw rows in
place; the received sequence is left unchanged precisely when every raw row
already has the maximal length — whenever some row is shorter, the
structure handed over by the row-extraction stage is mutated. -/
theorem C9_amended_mutation (rows : List (List String)) :
    (normalize_rows rows).1 = rows ↔ ∀ r ∈ rows, r.length = max_cols rows := by
  simp only [normalize_rows]
  rw [list_map_eq_self]
  constructor
  · intro h r hr
    have hlen := length_le_max_cols hr
    have h2 : (pad_row r (max_cols rows)).length = r.length := by rw [h r hr]
    rw [pad_row_length hlen] at h2
    omega
  · intro h r hr
    exact pad_row_eq_self (le_of_eq (h r hr).symm)

/-- **C9 witness.** -/
theorem C9_witness : (normalize_rows [["x", "y"]]).1 = [["x", "y"]] :=
  (C9_amended_mutation [["x", "y"]]).mpr (by decide)

/-- **C10** (confirmed).  A cell whose colspan attribute parses to zero or
a negative integer contributes zero copies of its text: `range(colspan)` is
empty, so the cell content is silently dropped from the raw row. -/
theorem C10_nonpositive_colspan (c : HtmlCell) (attr : String) (n : Int)
    (hattr : c.colspan = some attr) (hparse : pyInt attr = some n)
    (hn : n ≤ 0) : cell_expand c = .ok [] := by
  have h0 : n.toNat = 0 := Int.toNat_of_nonpos hn
  simp [cell_expand, hattr, hparse, h0]

/-- **C10 witness.** -/
theorem C10_witness : cell_expand ⟨"X", some "0"⟩ = .ok [] :=
  C10_nonpositive_colspan ⟨"X", some "0"⟩ "0" 0 rfl (by decide) (by decide)

end HTMLTableReader
